import Mathlib

/-!
Verification of the Keithley 2636B control program's instrument driver
(`device.py`, `main.py`, `config.py`) against its specification.

The driver is shallowly embedded: Python strings are Lean `String`s, the
Python `str` methods used by the driver (`strip`, `startswith`, slicing,
`split`) are modelled by executable functions over the underlying character
lists, Python `float(...)` literal parsing is modelled by a `Rat`-valued
parser (floating-point rounding is abstracted away: a parsed value is the
exact rational denoted by the literal; `inf`/`nan` and `_` separators are
not modelled), and the driver's side effects (instrument writes, queries,
persisted files) are made explicit as returned traces.
-/

namespace K2636

/-- ASCII whitespace recognised by Python `str.strip()` (space, tab,
newline, carriage return, vertical tab, form feed). -/
def pySpace (c : Char) : Bool :=
  c = ' ' || c = '\t' || c = '\n' || c = '\x0d' || c = '\x0b' || c = '\x0c'

/-- Characters of a string with leading and trailing whitespace removed:
models Python `str.strip()`. -/
def stripChars (cs : List Char) : List Char :=
  ((cs.dropWhile pySpace).reverse.dropWhile pySpace).reverse

/-- Models Python `s.strip()`. -/
def pyStrip (s : String) : String :=
  ⟨stripChars s.data⟩

/-- Prefix test on character lists. -/
def isPrefixList : List Char → List Char → Bool
  | [], _ => true
  | _ :: _, [] => false
  | p :: ps, c :: cs => p = c && isPrefixList ps cs

/-- Models Python `s.startswith(pre)`. -/
def pyStartswith (s pre : String) : Bool :=
  isPrefixList pre.data s.data

/-- Models Python slicing `s[n:]` (by code points). -/
def pyDrop (s : String) (n : Nat) : String :=
  ⟨s.data.drop n⟩

/-- Split a character list at every occurrence of `sep`; like Python
`str.split(sep)` this yields one (possibly empty) field more than the
number of separators, so the empty string yields `[[]]`. -/
def splitCharList (sep : Char) : List Char → List (List Char)
  | [] => [[]]
  | c :: rest =>
    match splitCharList sep rest with
    | h :: t => if c = sep then [] :: h :: t else (c :: h) :: t
    | [] => [[c]]

/-- Models Python `s.split(',')`. -/
def pySplitComma (s : String) : List String :=
  (splitCharList ',' s.data).map (fun cs => String.mk cs)

/-- Decimal digit test. -/
def isDigitCh (c : Char) : Bool :=
  48 ≤ c.toNat && c.toNat ≤ 57

/-- Digit run at the front of a character list, and the remainder. -/
def takeDigits (cs : List Char) : List Char × List Char :=
  (cs.takeWhile isDigitCh, cs.dropWhile isDigitCh)

/-- Numeric value of a digit run. -/
def digitsVal (cs : List Char) : Nat :=
  cs.foldl (fun acc c => acc * 10 + (c.toNat - 48)) 0

/-- Optional sign at the front of a numeric literal. -/
def takeSign : List Char → Int × List Char
  | '+' :: rest => (1, rest)
  | '-' :: rest => (-1, rest)
  | cs => (1, cs)

/-- Exponent-free part done; apply a parsed decimal exponent. -/
def applyExp (m : Rat) (esgn : Int) (e : Nat) : Rat :=
  if esgn = 1 then m * ((10 ^ e : Nat) : Rat) else m / ((10 ^ e : Nat) : Rat)

/-- Models acceptance and value of Python `float(...)` on a decimal
literal `[ws][sign][digits][.digits][(e|E)[sign]digits][ws]`; the value is
the exact rational denoted by the literal. -/
def parseFloat (s : String) : Option Rat :=
  let cs := stripChars s.data
  let (sgn, cs) := takeSign cs
  let (ip, cs) := takeDigits cs
  let (fp, cs) :=
    match cs with
    | '.' :: rest => takeDigits rest
    | _ => ([], cs)
  if ip.isEmpty && fp.isEmpty then none
  else
    let mant : Rat := mkRat (sgn * (digitsVal ip * 10 ^ fp.length + digitsVal fp)) (10 ^ fp.length)
    match cs with
    | [] => some mant
    | 'e' :: rest =>
      let (esgn, rest) := takeSign rest
      let (ed, rest) := takeDigits rest
      if ed.isEmpty || !rest.isEmpty then none else some (applyExp mant esgn (digitsVal ed))
    | 'E' :: rest =>
      let (esgn, rest) := takeSign rest
      let (ed, rest) := takeDigits rest
      if ed.isEmpty || !rest.isEmpty then none else some (applyExp mant esgn (digitsVal ed))
    | _ => none

/-- Write trace of `K2636.cancelOperation` (device.py lines 94-102): on a
connected instrument the method performs exactly these four `_write`s, in
this order. -/
def cancelOperation : List String :=
  ["abort",
   "smua.source.output = smua.OUTPUT_OFF",
   "smub.source.output = smub.OUTPUT_OFF",
   "reset()"]

/-- Modelled from the spec: the three-command abort sequence of section 6
(disable output channel A, disable output channel B, reset instrument
state), for comparison with the trace the source actually emits. -/
def specAbortSequence : List String :=
  ["smua.source.output = smua.OUTPUT_OFF",
   "smub.source.output = smub.OUTPUT_OFF",
   "reset()"]

/-- The `cancel_check` argument threaded from `Transfer` down to
`_readRealTimeData`: Python `None`, a callable (whose value at the i-th
poll is `f i`), or the plain `False` that `Transfer` defaults to. -/
inductive CancelArg where
  | noneArg : CancelArg
  | fn : (Nat → Bool) → CancelArg
  | falseArg : CancelArg

/-- Result of evaluating `cancel_check is not None and cancel_check()` at
the i-th loop iteration: `none` models the TypeError raised by calling the
non-callable `False`; otherwise `some` of the guard's value (for Python
`None` the conjunction short-circuits to `False` without a call). -/
def checkCancel : CancelArg → Nat → Option Bool
  | .noneArg, _ => some false
  | .fn f, i => some (f i)
  | .falseArg, _ => none

/-- Terminal state of one `_readRealTimeData` call. `completed` carries the
final table (`none` when no record was collected, mirroring the Python
`return None`); `cancelled` is the raised `UserCancelledError` (it carries
no table: accumulated records are discarded); `typeError` is the TypeError
from calling a non-callable `cancel_check`; `valueError` is the ValueError
from `float(...)` on an unparseable field; `blocked` models the stream
running out of lines before an `EE` sentinel, where the Python read would
block indefinitely. -/
inductive RTOutcome where
  | completed : Option (List (Rat × Rat)) → RTOutcome
  | cancelled : RTOutcome
  | typeError : RTOutcome
  | valueError : RTOutcome
  | blocked : RTOutcome
deriving DecidableEq

/-- One `_readRealTimeData` call: its terminal state, the instrument
commands it wrote (only the cancellation path writes), and the number of
lines it consumed from the stream. -/
structure RTRun where
  outcome : RTOutcome
  writes : List String
  reads : Nat
deriving DecidableEq

/-- The `gate_voltages`/`channel_currents` pair appended when the final
table is built: Python returns the DataFrame only when both lists are
nonempty, else `None`. -/
def optOf (acc : List (Rat × Rat)) : Option (List (Rat × Rat)) :=
  if acc.isEmpty then none else some acc

/-- What the loop body of `_readRealTimeData` does with one line:
append a record, raise ValueError, continue silently, or end the loop. -/
inductive LineClass where
  | record : Rat → Rat → LineClass
  | badFloat : LineClass
  | skip : LineClass
  | terminate : LineClass
deriving DecidableEq

/-- Direct transcription of the loop body's classification (device.py
lines 192-208): a stripped line starting with `@@` has the sentinel
stripped and is split on commas; with at least four fields, fields 0 and 3
are passed to `float(...)` (a parse failure raises ValueError), otherwise
the line is discarded. A stripped line starting with `EE` breaks the
loop. Anything else is noise and is skipped. -/
def classifyLine (l : String) : LineClass :=
  if pyStartswith (pyStrip l) "@@" then
    match pySplitComma (pyStrip (pyDrop (pyStrip l) 2)) with
    | v0s :: _ :: _ :: v3s :: _ =>
      match parseFloat v0s with
      | some v0 =>
        match parseFloat v3s with
        | some v3 => .record v0 v3
        | none => .badFloat
      | none => .badFloat
    | _ => .skip
  else if pyStartswith (pyStrip l) "EE" then .terminate
  else .skip

/-- Embeds `K2636._readRealTimeData` (device.py lines 170-218) on a stream
given as the list of lines the instrument will emit. Per iteration: poll
the cancellation guard, then read one line and act on its classification.
The `data_callback` snapshots have no effect on the result and are not
modelled. -/
def readRealTimeData (cancel : CancelArg) : List String → Nat → List (Rat × Rat) → RTRun
  | [], i, _ =>
    match checkCancel cancel i with
    | none => ⟨.typeError, [], 0⟩
    | some true => ⟨.cancelled, cancelOperation, 0⟩
    | some false => ⟨.blocked, [], 0⟩
  | l :: rest, i, acc =>
    match checkCancel cancel i with
    | none => ⟨.typeError, [], 0⟩
    | some true => ⟨.cancelled, cancelOperation, 0⟩
    | some false =>
      match classifyLine l with
      | .record v0 v3 =>
        ⟨(readRealTimeData cancel rest (i+1) (acc ++ [(v0, v3)])).outcome,
         (readRealTimeData cancel rest (i+1) (acc ++ [(v0, v3)])).writes,
         (readRealTimeData cancel rest (i+1) (acc ++ [(v0, v3)])).reads + 1⟩
      | .badFloat => ⟨.valueError, [], 1⟩
      | .skip =>
        ⟨(readRealTimeData cancel rest (i+1) acc).outcome,
         (readRealTimeData cancel rest (i+1) acc).writes,
         (readRealTimeData cancel rest (i+1) acc).reads + 1⟩
      | .terminate => ⟨.completed (optOf acc), [], 1⟩

/-- A line that does not (after stripping) start with the termination
sentinel `EE`. -/
def notEE (l : String) : Bool :=
  !(pyStartswith (pyStrip l) "EE")

/-- The record a single line contributes on the real-time path: `some` of
(parsed field 0, parsed field 3) exactly when the stripped line starts
with `@@`, splits into at least four comma-separated fields, and both
fields parse. -/
def recordOf (l : String) : Option (Rat × Rat) :=
  if pyStartswith (pyStrip l) "@@" then
    match pySplitComma (pyStrip (pyDrop (pyStrip l) 2)) with
    | v0s :: _ :: _ :: v3s :: _ =>
      match parseFloat v0s, parseFloat v3s with
      | some v0, some v3 => some (v0, v3)
      | _, _ => none
    | _ => none
  else none

/-- A line on which the loop body cannot raise ValueError: if it is an
accepted `@@` data line then both extracted fields parse as floats. -/
def lineParses (l : String) : Bool :=
  if pyStartswith (pyStrip l) "@@" then
    match pySplitComma (pyStrip (pyDrop (pyStrip l) 2)) with
    | v0s :: _ :: _ :: v3s :: _ => (parseFloat v0s).isSome && (parseFloat v3s).isSome
    | _ => true
  else true

/-- External collaborators of a `Transfer` job: the script directory
(`config.TSP_DIR`, supplied externally), the filesystem (a script path
resolves to the list of lines Python file iteration yields, newlines
included, or to `none` when `open` raises FileNotFoundError), and the two
line streams the instrument emits during the forward and the reverse
scan. -/
structure Env where
  tspDir : String
  files : String → Option (List String)
  forwardLines : List String
  reverseLines : List String

/-- Outcome of one `loadTSP` upload; `scriptNotFound` models the
`SystemExit` the source raises after catching FileNotFoundError. -/
inductive LoadResult where
  | ok : LoadResult
  | scriptNotFound : LoadResult
deriving DecidableEq

/-- The `for line in open(...)` loop of `loadTSP`: write each source line,
in file order, after the commands already written. -/
def writeLoop (trace : List String) : List String → List String
  | [] => trace
  | l :: rest => writeLoop (trace ++ [l]) rest

/-- Embeds `K2636.loadTSP` (device.py lines 104-119): write the literal
command `loadscript`, then every line of `config.TSP_DIR + tsp` unmodified
and in order, then the literal command `endscript`. Note the source writes
`loadscript` before opening the file, so on a missing file the command has
already been emitted when SystemExit is raised. Returns the result
together with the write trace. -/
def loadTSP (env : Env) (tsp : String) : LoadResult × List String :=
  match env.files (env.tspDir ++ tsp) with
  | none => (.scriptNotFound, ["loadscript"])
  | some ls => (.ok, writeLoop ["loadscript"] ls ++ ["endscript"])

/-- Write trace of `K2636.runTSP` (device.py lines 121-124). -/
def runTSP : List String :=
  ["script.anonymous.run()"]

/-- Terminal state of one `Transfer` call. `cancelledRaised` is the
re-raised `UserCancelledError`; `typeErrorRaised` and `valueErrorRaised`
are the uncaught exceptions propagating out of the stream reader;
`systemExit` is the SystemExit from a missing script; `blocked` models an
indefinitely blocking read. -/
inductive TransferOutcome where
  | completed : TransferOutcome
  | cancelledRaised : TransferOutcome
  | typeErrorRaised : TransferOutcome
  | valueErrorRaised : TransferOutcome
  | systemExit : TransferOutcome
  | blocked : TransferOutcome
deriving DecidableEq

/-- One `Transfer` call: its terminal state, every instrument command
written during the call, and the files persisted (name and table), in
order. -/
structure TransferRun where
  outcome : TransferOutcome
  writes : List String
  persisted : List (String × List (Rat × Rat))
deriving DecidableEq

/-- The `if df is not None: df.to_csv(...)` persistence step. -/
def persistOf (name : String) : Option (List (Rat × Rat)) → List (String × List (Rat × Rat))
  | some t => [(name, t)]
  | none => []

/-- Lift a non-`completed` reader outcome to the exception that propagates
out of `Transfer` (`UserCancelledError` is re-raised; TypeError and
ValueError are not caught; a blocking read never returns). -/
def escalate : RTOutcome → TransferOutcome
  | .completed _ => .completed
  | .cancelled => .cancelledRaised
  | .typeError => .typeErrorRaised
  | .valueError => .valueErrorRaised
  | .blocked => .blocked

/-- Embeds `K2636.Transfer` (device.py lines 236-273) together with
`_runTSPSweep` (lines 220-234): upload and run the forward script, stream
its output, persist the forward table if one was returned, then the same
for the reverse script. The Python default `cancel_check=False` is the
default here too. Timing and the `except AttributeError` no-connection
path are not modelled. -/
def Transfer (env : Env) (sample : String) (cancel : CancelArg := .falseArg) : TransferRun :=
  match loadTSP env "transfer-charact.tsp" with
  | (.scriptNotFound, tr1) => ⟨.systemExit, tr1, []⟩
  | (.ok, tr1) =>
    match (readRealTimeData cancel env.forwardLines 0 []).outcome with
    | .completed res1 =>
      match loadTSP env "transfer-charact-2.tsp" with
      | (.scriptNotFound, tr2) =>
        ⟨.systemExit,
         tr1 ++ runTSP ++ (readRealTimeData cancel env.forwardLines 0 []).writes ++ tr2,
         persistOf (sample ++ "-neg-pos-transfer.csv") res1⟩
      | (.ok, tr2) =>
        match (readRealTimeData cancel env.reverseLines 0 []).outcome with
        | .completed res2 =>
          ⟨.completed,
           tr1 ++ runTSP ++ (readRealTimeData cancel env.forwardLines 0 []).writes
             ++ tr2 ++ runTSP ++ (readRealTimeData cancel env.reverseLines 0 []).writes,
           persistOf (sample ++ "-neg-pos-transfer.csv") res1
             ++ persistOf (sample ++ "-pos-neg-transfer.csv") res2⟩
        | o2 =>
          ⟨escalate o2,
           tr1 ++ runTSP ++ (readRealTimeData cancel env.forwardLines 0 []).writes
             ++ tr2 ++ runTSP ++ (readRealTimeData cancel env.reverseLines 0 []).writes,
           persistOf (sample ++ "-neg-pos-transfer.csv") res1⟩
    | o1 =>
      ⟨escalate o1, tr1 ++ runTSP ++ (readRealTimeData cancel env.forwardLines 0 []).writes, []⟩

/-- The four buffer query commands of `K2636.readBuffer` (device.py lines
126-146), in the order the source issues them: gate source values, gate
readings, drain source values, drain readings. -/
def bufferCmd1 : String := "printbuffer(1, smua.nvbuffer1.n, smua.nvbuffer1.sourcevalues)"

/-- Second buffer query: gate readings. -/
def bufferCmd2 : String := "printbuffer(1, smua.nvbuffer1.n, smua.nvbuffer1.readings)"

/-- Third buffer query: drain source values. -/
def bufferCmd3 : String := "printbuffer(1, smub.nvbuffer1.n, smub.nvbuffer1.sourcevalues)"

/-- Fourth buffer query: drain readings. -/
def bufferCmd4 : String := "printbuffer(1, smub.nvbuffer1.n, smub.nvbuffer1.readings)"

/-- The four queries in issue order. -/
def queryCmds : List String := [bufferCmd1, bufferCmd2, bufferCmd3, bufferCmd4]

/-- The string `K2636._query` (device.py lines 81-92) returns instead of a
response when the transport raises `serial.SerialException`. -/
def busyMsg : String := "Serial port busy, try again."

/-- Embeds `K2636._query` on an open connection: the instrument's response,
or the busy sentinel string when the transport reports transient
contention on this command. -/
def query (busy : String → Bool) (resp : String → String) (cmd : String) : String :=
  if busy cmd then busyMsg else resp cmd

/-- The `[float(x) for x in r.split(',')]` comprehension: all fields parse,
or the ValueError propagates (`none`). -/
def parseFloatList (s : String) : Option (List Rat) :=
  (pySplitComma s).mapM parseFloat

/-- Rows of the four-column DataFrame built by `readBuffer`, column order
gate voltage, channel voltage, channel current, gate leakage. -/
def zip4 : List Rat → List Rat → List Rat → List Rat → List (Rat × Rat × Rat × Rat)
  | a :: as, b :: bs, c :: cs, d :: ds => (a, b, c, d) :: zip4 as bs cs ds
  | _, _, _, _ => []

/-- One `readBuffer` call: `some` rows on success, `none` when the
ValueError from parsing (in particular from the busy sentinel) or the
DataFrame length mismatch propagates; plus the queries actually issued,
in order. -/
structure BufferRun where
  result : Option (List (Rat × Rat × Rat × Rat))
  queriesIssued : List String
deriving DecidableEq

/-- Embeds `K2636.readBuffer` (device.py lines 126-146): four sequential
queries, each response split on commas and parsed to floats; the four
equal-length sequences are zipped into a four-column table. A parse
failure (the busy sentinel in particular) raises before the next query is
issued; unequal column lengths make the DataFrame constructor raise. -/
def readBuffer (busy : String → Bool) (resp : String → String) : BufferRun :=
  match parseFloatList (query busy resp bufferCmd1) with
  | none => ⟨none, [bufferCmd1]⟩
  | some vg =>
    match parseFloatList (query busy resp bufferCmd2) with
    | none => ⟨none, [bufferCmd1, bufferCmd2]⟩
    | some ig =>
      match parseFloatList (query busy resp bufferCmd3) with
      | none => ⟨none, [bufferCmd1, bufferCmd2, bufferCmd3]⟩
      | some vd =>
        match parseFloatList (query busy resp bufferCmd4) with
        | none => ⟨none, queryCmds⟩
        | some c =>
          if vg.length = vd.length ∧ vd.length = c.length ∧ c.length = ig.length then
            ⟨some (zip4 vg vd c ig), queryCmds⟩
          else ⟨none, queryCmds⟩

/-- The module-level default `config.ADDRESS` (config.py line 1). -/
def configADDRESS : String := "USB0::1510::9782::4399155\x00::0::INSTR"

/-- Some suffix of the second list starts with the first list. -/
def containsChars (pat : List Char) : List Char → Bool
  | [] => isPrefixList pat []
  | c :: rest => isPrefixList pat (c :: rest) || containsChars pat rest

/-- Models Python `pat in s` substring containment. -/
def containsSub (s pat : String) : Bool :=
  containsChars pat.data s.data

/-- The `any(x in str(address) for x in ('ttyS', 'ttyUSB', 'USB'))` check
of `makeConnection`. -/
def supportedAddress (address : String) : Bool :=
  ["ttyS", "ttyUSB", "USB"].any (fun x => containsSub address x)

/-- An established pyvisa session as configured by `makeConnection`. -/
structure Conn where
  address : String
  readTerm : String
  baudRate : Nat
  timeoutMs : Nat
deriving DecidableEq

/-- Embeds `K2636.makeConnection` (device.py lines 44-55). The address
argument is checked for a supported serial/USB identifier, but the
resource actually opened is `config.ADDRESS`; `openOk a` models whether
the underlying pyvisa transport at address `a` can be opened. Every
failure is re-raised as `ConnectionError`. -/
def makeConnection (openOk : String → Bool) (configAddr address readTerm : String)
    (baudrate : Nat) : Option Conn :=
  if supportedAddress address then
    if openOk configAddr then some ⟨configAddr, readTerm, baudrate, 500000⟩
    else none
  else none

/-- State of the `inst` session handle underlying a `K2636` object:
`noInst` — the attribute was never set (no connection was established),
`opened` — an open pyvisa session, `closed` — a session already closed. -/
inductive SessionState where
  | noInst : SessionState
  | opened : SessionState
  | closed : SessionState
deriving DecidableEq

/-- What one `closeConnection` call reports: a normal close, the printed
no-connection report, or an exception escaping the method. -/
inductive CloseOutcome where
  | closedOk : CloseOutcome
  | notConnectedReport : CloseOutcome
  | raisedInvalidSession : CloseOutcome
deriving DecidableEq

/-- Embeds `K2636.closeConnection` (device.py lines 57-66). The method
wraps `self.inst.close()` in handlers for `NameError` and
`AttributeError` only. On a never-connected object the attribute access
raises AttributeError, which is caught and reported. On an already-closed
session, pyvisa's `Resource.close` raises `errors.InvalidSession` (its
`session` property raises it once the handle is invalidated), which is
neither NameError nor AttributeError and therefore escapes. -/
def closeConnection : SessionState → CloseOutcome × SessionState
  | .noInst => (.notConnectedReport, .noInst)
  | .opened => (.closedOk, .closed)
  | .closed => (.raisedInvalidSession, .closed)

/-- The measurement thread's shared state (main.py line 120): the
`_cancel_requested` flag written by the cancel path and read by the
worker. -/
structure ThreadState where
  cancelRequested : Bool
deriving DecidableEq

/-- Embeds `measureThread.cancel` (main.py lines 122-130), which runs on
the GUI event context: it sets `_cancel_requested` and then directly calls
`self.keithley.cancelOperation()` on the shared instrument connection,
returning the updated state and the instrument commands this path itself
writes. -/
def measureThreadCancel (_s : ThreadState) : ThreadState × List String :=
  (⟨true⟩, cancelOperation)

/-- GUI-side state relevant to `GUI.cancelOperation`: whether a
measurement thread is running, and that thread's state. -/
structure AppState where
  threadRunning : Bool
  thread : ThreadState
deriving DecidableEq

/-- Embeds `GUI.cancelOperation` (main.py lines 37-62) for the case
relevant to an in-flight sweep: when a measurement thread is running it
delegates to `measureThread.cancel`; otherwise it opens a temporary
connection and sends the abort commands there (best effort). Returns the
new application state and the commands written on the worker's shared
connection. -/
def guiCancelOperation (app : AppState) : AppState × List String :=
  if app.threadRunning then
    ({ app with thread := (measureThreadCancel app.thread).1 },
     (measureThreadCancel app.thread).2)
  else
    (app, [])

/-- The call the measurement thread makes (main.py line 144):
`keithley.Transfer(self.params['Sample name'])` — no `cancel_check`
argument, so `Transfer` runs with its default. -/
def measureThreadRunTransfer (env : Env) (sample : String) : TransferRun :=
  Transfer env sample

/-- Stream of the specification's test scenario, section 8, extended with
a noise line, a malformed short data line, and a post-termination data
line that must be ignored. -/
def demoLines : List String :=
  ["@@1.0,0.0,2.0,0.001", "junk", "@@1.5,0.4", "@@2.0,0.0,2.6,0.0013", "EE", "@@9,9,9,9"]

/-- A concrete environment: both transfer scripts exist, the forward scan
emits `demoLines`, the reverse scan one record then `EE`. -/
def envDemo : Env :=
  ⟨"TSP-scripts/",
   fun p =>
     if p = "TSP-scripts/transfer-charact.tsp" then some ["line1
", "line2
"]
     else if p = "TSP-scripts/transfer-charact-2.tsp" then some ["line3
"]
     else none,
   demoLines,
   ["@@5.0,0.0,2.0,0.002", "EE"]⟩

theorem not_EE_of_AA (s : String) (h : pyStartswith s "@@" = true) :
    pyStartswith s "EE" = false := by
  unfold pyStartswith at h ⊢
  cases hd : s.data with
  | nil =>
    rw [hd] at h
    exact absurd h (by decide)
  | cons c rest =>
    rw [hd] at h
    have h' : (decide ('@' = c) && isPrefixList ['@'] rest) = true := h
    simp only [Bool.and_eq_true, decide_eq_true_eq] at h'
    obtain ⟨h1, -⟩ := h'
    show (decide ('E' = c) && isPrefixList ['E'] rest) = false
    subst h1
    simp

theorem readRT_step (cancel : CancelArg) (l : String) (rest : List String) (i : Nat)
    (acc : List (Rat × Rat)) (hc : checkCancel cancel i = some false) :
    readRealTimeData cancel (l :: rest) i acc =
      (match classifyLine l with
      | .record v0 v3 =>
        ⟨(readRealTimeData cancel rest (i+1) (acc ++ [(v0, v3)])).outcome,
         (readRealTimeData cancel rest (i+1) (acc ++ [(v0, v3)])).writes,
         (readRealTimeData cancel rest (i+1) (acc ++ [(v0, v3)])).reads + 1⟩
      | .badFloat => ⟨.valueError, [], 1⟩
      | .skip =>
        ⟨(readRealTimeData cancel rest (i+1) acc).outcome,
         (readRealTimeData cancel rest (i+1) acc).writes,
         (readRealTimeData cancel rest (i+1) acc).reads + 1⟩
      | .terminate => ⟨.completed (optOf acc), [], 1⟩) := by
  rw [readRealTimeData, hc]

theorem readRT_blocked (cancel : CancelArg) (i : Nat) (acc : List (Rat × Rat))
    (hc : checkCancel cancel i = some false) :
    readRealTimeData cancel [] i acc = ⟨.blocked, [], 0⟩ := by
  rw [readRealTimeData, hc]

theorem readRT_cancel_now (cancel : CancelArg) (lines : List String) (i : Nat)
    (acc : List (Rat × Rat)) (hc : checkCancel cancel i = some true) :
    readRealTimeData cancel lines i acc = ⟨.cancelled, cancelOperation, 0⟩ := by
  cases lines <;> rw [readRealTimeData, hc]

theorem readRT_typeError_now (cancel : CancelArg) (lines : List String) (i : Nat)
    (acc : List (Rat × Rat)) (hc : checkCancel cancel i = none) :
    readRealTimeData cancel lines i acc = ⟨.typeError, [], 0⟩ := by
  cases lines <;> rw [readRealTimeData, hc]

theorem writeLoop_eq (ls : List String) : ∀ tr : List String, writeLoop tr ls = tr ++ ls := by
  induction ls with
  | nil => intro tr; simp [writeLoop]
  | cons l rest ih => intro tr; simp [writeLoop, ih]

theorem recordOf_of_record {l : String} {v0 v3 : Rat} (h : classifyLine l = .record v0 v3) :
    recordOf l = some (v0, v3) := by
  unfold recordOf classifyLine at *
  repeat' split at h
  all_goals simp_all

theorem recordOf_of_skip {l : String} (h : classifyLine l = .skip) :
    recordOf l = none := by
  unfold recordOf classifyLine at *
  repeat' split at h
  all_goals simp_all

theorem lineParses_of_badFloat {l : String} (h : classifyLine l = .badFloat) :
    lineParses l = false := by
  unfold lineParses classifyLine at *
  repeat' split at h
  all_goals simp_all

theorem classify_of_lineParses {l : String} (h : lineParses l = true) :
    classifyLine l ≠ .badFloat := by
  intro hb
  rw [lineParses_of_badFloat hb] at h
  cases h

theorem EE_of_terminate {l : String} (h : classifyLine l = .terminate) :
    pyStartswith (pyStrip l) "EE" = true := by
  unfold classifyLine at h
  repeat' split at h
  all_goals simp_all

theorem EE_false_of_not_terminate {l : String} (h : ¬ classifyLine l = .terminate) :
    pyStartswith (pyStrip l) "EE" = false := by
  by_cases hE : pyStartswith (pyStrip l) "EE" = true
  · exfalso
    apply h
    unfold classifyLine
    by_cases hA : pyStartswith (pyStrip l) "@@" = true
    · rw [not_EE_of_AA _ hA] at hE
      cases hE
    · rw [if_neg hA, if_pos hE]
  · cases h2 : pyStartswith (pyStrip l) "EE"
    · rfl
    · exact absurd h2 hE

theorem notEE_true_of_not_terminate {l : String} (h : ¬ classifyLine l = .terminate) :
    notEE l = true := by
  unfold notEE
  rw [EE_false_of_not_terminate h]
  rfl

theorem notEE_false_of_terminate {l : String} (h : classifyLine l = .terminate) :
    notEE l = false := by
  unfold notEE
  rw [EE_of_terminate h]
  rfl

theorem terminate_of_EE {l : String} (h : pyStartswith (pyStrip l) "EE" = true) :
    classifyLine l = .terminate := by
  by_contra hn
  rw [EE_false_of_not_terminate hn] at h
  cases h

theorem readRT_none_run (lines : List String) : ∀ (i : Nat) (acc : List (Rat × Rat)),
    (∃ l ∈ lines, pyStartswith (pyStrip l) "EE" = true) →
    (∀ l ∈ lines.takeWhile notEE, lineParses l = true) →
    readRealTimeData .noneArg lines i acc =
      ⟨.completed (optOf (acc ++ (lines.takeWhile notEE).filterMap recordOf)), [],
       (lines.takeWhile notEE).length + 1⟩ := by
  induction lines with
  | nil =>
    intro i acc hEE _
    simp at hEE
  | cons l rest ih =>
    intro i acc hEE hP
    rw [readRT_step .noneArg l rest i acc rfl]
    cases hcl : classifyLine l with
    | record v0 v3 =>
      have hterm : ¬ classifyLine l = .terminate := by rw [hcl]; intro hx; cases hx
      have hnot : notEE l = true := notEE_true_of_not_terminate hterm
      have hEE' : ∃ x ∈ rest, pyStartswith (pyStrip x) "EE" = true := by
        obtain ⟨x, hx, hxE⟩ := hEE
        rcases List.mem_cons.mp hx with h1 | h1
        · rw [h1] at hxE
          rw [EE_false_of_not_terminate hterm] at hxE
          cases hxE
        · exact ⟨x, h1, hxE⟩
      have hP' : ∀ x ∈ rest.takeWhile notEE, lineParses x = true := by
        intro x hx
        refine hP x ?_
        rw [List.takeWhile_cons_of_pos hnot]
        exact List.mem_cons_of_mem _ hx
      simp only []
      rw [ih (i+1) (acc ++ [(v0, v3)]) hEE' hP']
      rw [List.takeWhile_cons_of_pos hnot, List.filterMap_cons, recordOf_of_record hcl]
      simp
    | badFloat =>
      exfalso
      have hterm : ¬ classifyLine l = .terminate := by rw [hcl]; intro hx; cases hx
      have hnot : notEE l = true := notEE_true_of_not_terminate hterm
      have hPl : lineParses l = true := by
        refine hP l ?_
        rw [List.takeWhile_cons_of_pos hnot]
        exact List.mem_cons_self _ _
      exact classify_of_lineParses hPl hcl
    | skip =>
      have hterm : ¬ classifyLine l = .terminate := by rw [hcl]; intro hx; cases hx
      have hnot : notEE l = true := notEE_true_of_not_terminate hterm
      have hEE' : ∃ x ∈ rest, pyStartswith (pyStrip x) "EE" = true := by
        obtain ⟨x, hx, hxE⟩ := hEE
        rcases List.mem_cons.mp hx with h1 | h1
        · rw [h1] at hxE
          rw [EE_false_of_not_terminate hterm] at hxE
          cases hxE
        · exact ⟨x, h1, hxE⟩
      have hP' : ∀ x ∈ rest.takeWhile notEE, lineParses x = true := by
        intro x hx
        refine hP x ?_
        rw [List.takeWhile_cons_of_pos hnot]
        exact List.mem_cons_of_mem _ hx
      simp only []
      rw [ih (i+1) acc hEE' hP']
      rw [List.takeWhile_cons_of_pos hnot, List.filterMap_cons, recordOf_of_skip hcl]
      simp
    | terminate =>
      have hnot : notEE l = false := notEE_false_of_terminate hcl
      rw [List.takeWhile_cons_of_neg (by simp [hnot])]
      simp

theorem readRT_writes_of_cancelled (cancel : CancelArg) (lines : List String) :
    ∀ (i : Nat) (acc : List (Rat × Rat)),
    (readRealTimeData cancel lines i acc).outcome = .cancelled →
    (readRealTimeData cancel lines i acc).writes = cancelOperation := by
  induction lines with
  | nil =>
    intro i acc h
    cases hc : checkCancel cancel i with
    | none =>
      rw [readRT_typeError_now cancel [] i acc hc] at h
      cases h
    | some b =>
      cases b with
      | true => rw [readRT_cancel_now cancel [] i acc hc]
      | false =>
        rw [readRT_blocked cancel i acc hc] at h
        cases h
  | cons l rest ih =>
    intro i acc h
    cases hc : checkCancel cancel i with
    | none =>
      rw [readRT_typeError_now cancel _ i acc hc] at h
      cases h
    | some b =>
      cases b with
      | true => rw [readRT_cancel_now cancel _ i acc hc]
      | false =>
        rw [readRT_step cancel l rest i acc hc] at h ⊢
        cases hcl : classifyLine l with
        | record v0 v3 =>
          rw [hcl] at h
          simp only [] at h ⊢
          exact ih (i+1) _ h
        | badFloat =>
          rw [hcl] at h
          simp only [] at h
          cases h
        | skip =>
          rw [hcl] at h
          simp only [] at h ⊢
          exact ih (i+1) _ h
        | terminate =>
          rw [hcl] at h
          simp only [] at h
          cases h

theorem readRT_fn_cancel (f : Nat → Bool) :
    ∀ (k : Nat) (lines : List String) (i : Nat) (acc : List (Rat × Rat)),
    f (i + k) = true →
    k ≤ (lines.takeWhile notEE).length →
    (∀ l ∈ lines.take k, lineParses l = true) →
    ∃ j ≤ k, readRealTimeData (.fn f) lines i acc = ⟨.cancelled, cancelOperation, j⟩ := by
  intro k
  induction k with
  | zero =>
    intro lines i acc hf _ _
    refine ⟨0, Nat.le_refl 0, ?_⟩
    refine readRT_cancel_now _ lines i acc ?_
    have hf' : f i = true := by simpa using hf
    simp [checkCancel, hf']
  | succ k ihk =>
    intro lines i acc hf hk hP
    cases hfi : f i with
    | true =>
      exact ⟨0, Nat.zero_le _, readRT_cancel_now _ lines i acc (by simp [checkCancel, hfi])⟩
    | false =>
      cases lines with
      | nil => simp [List.takeWhile] at hk
      | cons l rest =>
        by_cases hnot : notEE l = true
        case neg =>
          rw [List.takeWhile_cons_of_neg (by simpa using hnot)] at hk
          simp at hk
        case pos =>
          rw [List.takeWhile_cons_of_pos hnot] at hk
          have hk' : k ≤ (rest.takeWhile notEE).length := by simpa using hk
          have hterm : classifyLine l ≠ .terminate := by
            intro ht
            rw [notEE_false_of_terminate ht] at hnot
            cases hnot
          have hPl : lineParses l = true := by
            refine hP l ?_
            rw [List.take_succ_cons]
            exact List.mem_cons_self _ _
          have hP' : ∀ x ∈ rest.take k, lineParses x = true := by
            intro x hx
            refine hP x ?_
            rw [List.take_succ_cons]
            exact List.mem_cons_of_mem _ hx
          have hf' : f ((i+1) + k) = true := by
            have he : (i+1) + k = i + (k+1) := by omega
            rw [he]
            exact hf
          cases hcl : classifyLine l with
          | record v0 v3 =>
            obtain ⟨j, hj, heq⟩ := ihk rest (i+1) (acc ++ [(v0, v3)]) hf' hk' hP'
            refine ⟨j + 1, by omega, ?_⟩
            rw [readRT_step (.fn f) l rest i acc (by simp [checkCancel, hfi]), hcl]
            simp only []
            rw [heq]
          | badFloat => exact absurd hcl (classify_of_lineParses hPl)
          | skip =>
            obtain ⟨j, hj, heq⟩ := ihk rest (i+1) acc hf' hk' hP'
            refine ⟨j + 1, by omega, ?_⟩
            rw [readRT_step (.fn f) l rest i acc (by simp [checkCancel, hfi]), hcl]
            simp only []
            rw [heq]
          | terminate => exact absurd hcl hterm

theorem loadTSP_found {env : Env} {tsp : String} {ls : List String}
    (hf : env.files (env.tspDir ++ tsp) = some ls) :
    loadTSP env tsp = (.ok, "loadscript" :: ls ++ ["endscript"]) := by
  unfold loadTSP
  rw [hf]
  simp only []
  rw [writeLoop_eq]
  rfl

theorem loadTSP_missing {env : Env} {tsp : String}
    (hf : env.files (env.tspDir ++ tsp) = none) :
    loadTSP env tsp = (.scriptNotFound, ["loadscript"]) := by
  unfold loadTSP
  rw [hf]

theorem Transfer_cancelled_forward {env : Env} {sample : String} {f : Nat → Bool} {ls1 : List String}
    (hf : env.files (env.tspDir ++ "transfer-charact.tsp") = some ls1)
    (hc : (readRealTimeData (.fn f) env.forwardLines 0 []).outcome = .cancelled) :
    Transfer env sample (.fn f) =
      ⟨.cancelledRaised,
       ("loadscript" :: ls1 ++ ["endscript"]) ++ runTSP ++ cancelOperation, []⟩ := by
  unfold Transfer
  rw [loadTSP_found hf]
  simp only []
  rw [hc]
  simp only []
  rw [readRT_writes_of_cancelled _ _ _ _ hc]
  rfl

theorem Transfer_default (env : Env) (sample : String) :
    (Transfer env sample).persisted = [] ∧
    ((env.files (env.tspDir ++ "transfer-charact.tsp")).isSome →
      (Transfer env sample).outcome = .typeErrorRaised) := by
  constructor
  · unfold Transfer
    cases hf : env.files (env.tspDir ++ "transfer-charact.tsp") with
    | none => rw [loadTSP_missing hf]
    | some ls =>
      rw [loadTSP_found hf]
      simp only []
      rw [readRT_typeError_now .falseArg env.forwardLines 0 [] rfl]
  · intro hsome
    obtain ⟨ls, hf⟩ := Option.isSome_iff_exists.mp hsome
    unfold Transfer
    rw [loadTSP_found hf]
    simp only []
    rw [readRT_typeError_now .falseArg env.forwardLines 0 [] rfl]
    rfl

theorem query_not_busy {busy : String → Bool} {resp : String → String} {cmd : String}
    (h : busy cmd = false) : query busy resp cmd = resp cmd := by
  simp [query, h]

theorem query_busy {busy : String → Bool} {resp : String → String} {cmd : String}
    (h : busy cmd = true) : query busy resp cmd = busyMsg := by
  simp [query, h]

theorem parseFloatList_busyMsg : parseFloatList busyMsg = none := by decide

theorem readBuffer_ok (busy : String → Bool) (resp : String → String)
    (vg ig vd c : List Rat)
    (hb1 : busy bufferCmd1 = false) (hb2 : busy bufferCmd2 = false)
    (hb3 : busy bufferCmd3 = false) (hb4 : busy bufferCmd4 = false)
    (h1 : parseFloatList (resp bufferCmd1) = some vg)
    (h2 : parseFloatList (resp bufferCmd2) = some ig)
    (h3 : parseFloatList (resp bufferCmd3) = some vd)
    (h4 : parseFloatList (resp bufferCmd4) = some c)
    (hlen : vg.length = vd.length ∧ vd.length = c.length ∧ c.length = ig.length) :
    readBuffer busy resp = ⟨some (zip4 vg vd c ig), queryCmds⟩ := by
  unfold readBuffer
  rw [query_not_busy hb1, query_not_busy hb2, query_not_busy hb3, query_not_busy hb4,
    h1, h2, h3, h4]
  simp only []
  rw [if_pos hlen]

theorem readBuffer_busy (busy : String → Bool) (resp : String → String) (k : Nat)
    (hk : k < 4)
    (hbusy : busy (queryCmds.getD k "") = true)
    (hpre : ∀ j, j < k → busy (queryCmds.getD j "") = false ∧
      (parseFloatList (resp (queryCmds.getD j ""))).isSome = true) :
    (readBuffer busy resp).result = none ∧
    (readBuffer busy resp).queriesIssued = queryCmds.take (k+1) := by
  match k, hk with
  | 0, _ =>
    rw [show queryCmds.getD 0 "" = bufferCmd1 from rfl] at hbusy
    unfold readBuffer
    rw [query_busy hbusy, parseFloatList_busyMsg]
    exact ⟨rfl, rfl⟩
  | 1, _ =>
    rw [show queryCmds.getD 1 "" = bufferCmd2 from rfl] at hbusy
    obtain ⟨hb0, hp0⟩ := hpre 0 (by omega)
    rw [show queryCmds.getD 0 "" = bufferCmd1 from rfl] at hb0 hp0
    obtain ⟨vg, h0⟩ := Option.isSome_iff_exists.mp hp0
    unfold readBuffer
    rw [query_not_busy hb0, h0, query_busy hbusy, parseFloatList_busyMsg]
    exact ⟨rfl, rfl⟩
  | 2, _ =>
    rw [show queryCmds.getD 2 "" = bufferCmd3 from rfl] at hbusy
    obtain ⟨hb0, hp0⟩ := hpre 0 (by omega)
    obtain ⟨hb1, hp1⟩ := hpre 1 (by omega)
    rw [show queryCmds.getD 0 "" = bufferCmd1 from rfl] at hb0 hp0
    rw [show queryCmds.getD 1 "" = bufferCmd2 from rfl] at hb1 hp1
    obtain ⟨vg, h0⟩ := Option.isSome_iff_exists.mp hp0
    obtain ⟨ig, h1⟩ := Option.isSome_iff_exists.mp hp1
    unfold readBuffer
    rw [query_not_busy hb0, h0, query_not_busy hb1, h1, query_busy hbusy, parseFloatList_busyMsg]
    exact ⟨rfl, rfl⟩
  | 3, _ =>
    rw [show queryCmds.getD 3 "" = bufferCmd4 from rfl] at hbusy
    obtain ⟨hb0, hp0⟩ := hpre 0 (by omega)
    obtain ⟨hb1, hp1⟩ := hpre 1 (by omega)
    obtain ⟨hb2, hp2⟩ := hpre 2 (by omega)
    rw [show queryCmds.getD 0 "" = bufferCmd1 from rfl] at hb0 hp0
    rw [show queryCmds.getD 1 "" = bufferCmd2 from rfl] at hb1 hp1
    rw [show queryCmds.getD 2 "" = bufferCmd3 from rfl] at hb2 hp2
    obtain ⟨vg, h0⟩ := Option.isSome_iff_exists.mp hp0
    obtain ⟨ig, h1⟩ := Option.isSome_iff_exists.mp hp1
    obtain ⟨vd, h2⟩ := Option.isSome_iff_exists.mp hp2
    unfold readBuffer
    rw [query_not_busy hb0, h0, query_not_busy hb1, h1, query_not_busy hb2, h2,
      query_busy hbusy, parseFloatList_busyMsg]
    exact ⟨rfl, rfl⟩

/-- C1: for every real-time stream in which a termination (`EE`) line
occurs and whose accepted `@@` data lines before it have parseable first
and fourth fields, the reader returns the completed table holding exactly
one record per `@@` line with at least four comma-separated fields
(`recordOf`), counting only lines strictly before the first `EE` line, in
stream order, gate voltage the parsed first field and channel current the
parsed fourth field; short `@@` lines and noise lines contribute no
record and do not end the loop. -/
theorem C1_stream_table (lines : List String)
    (hEE : ∃ l ∈ lines, pyStartswith (pyStrip l) "EE" = true)
    (hP : ∀ l ∈ lines.takeWhile notEE, lineParses l = true) :
    readRealTimeData .noneArg lines 0 [] =
      ⟨.completed (optOf ((lines.takeWhile notEE).filterMap recordOf)), [],
       (lines.takeWhile notEE).length + 1⟩ := by
  simpa using readRT_none_run lines 0 [] hEE hP

/-- C1 witness: the specification's section-8 scenario extended with a
noise line, a short data line, and a data line after `EE`. -/
theorem C1_stream_table_witness :
    readRealTimeData .noneArg demoLines 0 [] =
      ⟨.completed (optOf ((demoLines.takeWhile notEE).filterMap recordOf)), [],
       (demoLines.takeWhile notEE).length + 1⟩ :=
  C1_stream_table demoLines (by decide) (by decide)

/-- C2: if the cancellation callable turns true at the k-th poll and the
stream still has unterminated (pre-`EE`) lines at that point, the reader
stops at some poll j ≤ k: it performs no further read (j lines were
consumed), writes the abort command sequence exactly once and nothing
else, and ends in the `cancelled` outcome, which carries no table — so
the cancelled run is distinct from every completed run. -/
theorem C2_cancel_before_read (f : Nat → Bool) (lines : List String) (k : Nat)
    (hk : f k = true)
    (hreach : k ≤ (lines.takeWhile notEE).length)
    (hP : ∀ l ∈ lines.take k, lineParses l = true) :
    (∃ j ≤ k, readRealTimeData (.fn f) lines 0 [] = ⟨.cancelled, cancelOperation, j⟩) ∧
    ∀ t, (readRealTimeData (.fn f) lines 0 []).outcome ≠ .completed t := by
  obtain ⟨j, hj, heq⟩ := readRT_fn_cancel f k lines 0 [] (by simpa using hk) hreach hP
  refine ⟨⟨j, hj, heq⟩, ?_⟩
  intro t hct
  rw [heq] at hct
  cases hct

/-- C2 witness: the section-8 cancellation scenario — the flag turns true
at the third poll (index 2), after two records were read. -/
theorem C2_cancel_before_read_witness :
    (readRealTimeData (.fn fun i => decide (2 ≤ i)) demoLines 0 []).outcome = .cancelled ∧
    (readRealTimeData (.fn fun i => decide (2 ≤ i)) demoLines 0 []).writes = cancelOperation := by
  obtain ⟨⟨j, hj, heq⟩, -⟩ :=
    C2_cancel_before_read (fun i => decide (2 ≤ i)) demoLines 2 (by decide) (by decide) (by decide)
  rw [heq]
  exact ⟨rfl, rfl⟩

/-- C3 counterexample: the abort routine writes four commands, not three —
an execution-abort command precedes the spec's three-command sequence. -/
theorem C3_counterexample :
    cancelOperation ≠ specAbortSequence ∧ cancelOperation.length = 4 ∧
    cancelOperation = "abort" :: specAbortSequence := by decide

/-- C3 amended: whenever the driver aborts an in-flight sweep, the entire
command trace written during that reader call is exactly the four
commands abort-execution, disable output channel A, disable output
channel B, reset instrument state, in this order, as a unit with no other
command interleaved. -/
theorem C3_abort_trace (cancel : CancelArg) (lines : List String)
    (h : (readRealTimeData cancel lines 0 []).outcome = .cancelled) :
    (readRealTimeData cancel lines 0 []).writes =
      ["abort", "smua.source.output = smua.OUTPUT_OFF",
       "smub.source.output = smub.OUTPUT_OFF", "reset()"] :=
  readRT_writes_of_cancelled cancel lines 0 [] h

/-- C3 witness: a reader call cancelled at the first poll. -/
theorem C3_abort_trace_witness :
    (readRealTimeData (.fn fun _ => true) demoLines 0 []).writes =
      ["abort", "smua.source.output = smua.OUTPUT_OFF",
       "smub.source.output = smub.OUTPUT_OFF", "reset()"] :=
  C3_abort_trace (.fn fun _ => true) demoLines (by decide)

/-- C4: `Transfer` called without a `cancel_check` argument leaves it at
the default `False`, which is neither `None` nor callable; the stream
reader's first iteration evaluates the guard before any read and raises
TypeError (no line read, no command written); hence the measurement
thread's default call never persists a file, and when the forward script
exists its outcome is the propagating TypeError. -/
theorem C4_default_cancel_typeError (lines : List String) (env : Env) (sample : String) :
    readRealTimeData .falseArg lines 0 [] = ⟨.typeError, [], 0⟩ ∧
    (measureThreadRunTransfer env sample).persisted = [] ∧
    ((env.files (env.tspDir ++ "transfer-charact.tsp")).isSome →
      (measureThreadRunTransfer env sample).outcome = .typeErrorRaised) :=
  ⟨readRT_typeError_now .falseArg lines 0 [] rfl,
   (Transfer_default env sample).1,
   (Transfer_default env sample).2⟩

/-- C4 witness: the default-call path on a concrete environment whose
forward script exists. -/
theorem C4_default_cancel_typeError_witness :
    (measureThreadRunTransfer envDemo "dev1").persisted = [] ∧
    (measureThreadRunTransfer envDemo "dev1").outcome = .typeErrorRaised :=
  ⟨(C4_default_cancel_typeError [] envDemo "dev1").2.1,
   (C4_default_cancel_typeError [] envDemo "dev1").2.2 (by decide)⟩

/-- C5: when the forward scan of a transfer job ends cancelled, the job
re-raises the cancellation: outcome `cancelledRaised`, nothing persisted
(forward records are discarded), and the complete write trace is the
forward upload, the run command, then the abort sequence — the reverse
script is never uploaded and never run. -/
theorem C5_forward_cancel_skips_reverse (env : Env) (sample : String) (f : Nat → Bool)
    (ls1 : List String)
    (hf : env.files (env.tspDir ++ "transfer-charact.tsp") = some ls1)
    (hc : (readRealTimeData (.fn f) env.forwardLines 0 []).outcome = .cancelled) :
    Transfer env sample (.fn f) =
      ⟨.cancelledRaised,
       ("loadscript" :: ls1 ++ ["endscript"]) ++ runTSP ++ cancelOperation, []⟩ :=
  Transfer_cancelled_forward hf hc

/-- C5 witness: cancellation requested before the first forward read. -/
theorem C5_forward_cancel_skips_reverse_witness :
    Transfer envDemo "dev2" (.fn fun _ => true) =
      ⟨.cancelledRaised,
       ("loadscript" :: ["line1\x0a", "line2\x0a"] ++ ["endscript"]) ++ runTSP ++ cancelOperation,
       []⟩ :=
  C5_forward_cancel_skips_reverse envDemo "dev2" (fun _ => true) ["line1\x0a", "line2\x0a"]
    (by decide) (by decide)

/-- C6: uploading an existing script writes the literal `loadscript`
command, then every line of the file unmodified and in original order,
then the literal `endscript` command; uploading a missing script fails
with the ScriptNotFound outcome. -/
theorem C6_loadTSP_verbatim (env : Env) (tsp : String) (ls : List String) :
    (env.files (env.tspDir ++ tsp) = some ls →
      loadTSP env tsp = (.ok, "loadscript" :: ls ++ ["endscript"])) ∧
    (env.files (env.tspDir ++ tsp) = none →
      (loadTSP env tsp).1 = .scriptNotFound) :=
  ⟨fun hf => loadTSP_found hf,
   fun hf => by rw [loadTSP_missing hf]⟩

/-- C6 witness: an existing two-line script and a missing script. -/
theorem C6_loadTSP_verbatim_witness :
    loadTSP envDemo "transfer-charact.tsp" =
      (.ok, "loadscript" :: ["line1\x0a", "line2\x0a"] ++ ["endscript"]) ∧
    (loadTSP envDemo "missing.tsp").1 = .scriptNotFound :=
  ⟨(C6_loadTSP_verbatim envDemo "transfer-charact.tsp" ["line1\x0a", "line2\x0a"]).1 (by decide),
   (C6_loadTSP_verbatim envDemo "missing.tsp" []).2 (by decide)⟩

/-- C7: evaluated at the module's own test address with a transport that
opens anything: the supplied address passes validation, yet the session is
opened at `config.ADDRESS` — a different address than the one supplied;
an address with no serial/USB identifier fails. -/
theorem C7_opens_config_address :
    supportedAddress "ASRL/dev/ttyUSB0" = true ∧
    makeConnection (fun _ => true) configADDRESS "ASRL/dev/ttyUSB0" "\x0a" 57600 =
      some ⟨configADDRESS, "\x0a", 57600, 500000⟩ ∧
    configADDRESS ≠ "ASRL/dev/ttyUSB0" ∧
    makeConnection (fun _ => true) configADDRESS "GPIB0::26::INSTR" "\x0a" 57600 = none := by
  decide

/-- C8: on a transport with no busy condition and four parseable
responses of equal field count, `readBuffer` issues exactly the four
queries in order and returns the four parsed sequences zipped into a
four-column table; if the transport is busy on the (k+1)-th query (the
earlier ones being clean and parseable), the call fails, having issued
each of the first k+1 queries exactly once — no internal retry. -/
theorem C8_readBuffer (busy : String → Bool) (resp : String → String) (k : Nat) :
    ((busy bufferCmd1 = false → busy bufferCmd2 = false →
      busy bufferCmd3 = false → busy bufferCmd4 = false →
      (parseFloatList (resp bufferCmd1)).isSome = true →
      (parseFloatList (resp bufferCmd2)).isSome = true →
      (parseFloatList (resp bufferCmd3)).isSome = true →
      (parseFloatList (resp bufferCmd4)).isSome = true →
      ((parseFloatList (resp bufferCmd1)).getD []).length =
          ((parseFloatList (resp bufferCmd3)).getD []).length ∧
        ((parseFloatList (resp bufferCmd3)).getD []).length =
          ((parseFloatList (resp bufferCmd4)).getD []).length ∧
        ((parseFloatList (resp bufferCmd4)).getD []).length =
          ((parseFloatList (resp bufferCmd2)).getD []).length →
      readBuffer busy resp =
        ⟨some (zip4 ((parseFloatList (resp bufferCmd1)).getD [])
                    ((parseFloatList (resp bufferCmd3)).getD [])
                    ((parseFloatList (resp bufferCmd4)).getD [])
                    ((parseFloatList (resp bufferCmd2)).getD [])),
         queryCmds⟩)) ∧
    (k < 4 → busy (queryCmds.getD k "") = true →
      (∀ j, j < k → busy (queryCmds.getD j "") = false ∧
        (parseFloatList (resp (queryCmds.getD j ""))).isSome = true) →
      (readBuffer busy resp).result = none ∧
      (readBuffer busy resp).queriesIssued = queryCmds.take (k+1)) := by
  constructor
  · intro hb1 hb2 hb3 hb4 hp1 hp2 hp3 hp4 hlen
    obtain ⟨vg, h1⟩ := Option.isSome_iff_exists.mp hp1
    obtain ⟨ig, h2⟩ := Option.isSome_iff_exists.mp hp2
    obtain ⟨vd, h3⟩ := Option.isSome_iff_exists.mp hp3
    obtain ⟨c, h4⟩ := Option.isSome_iff_exists.mp hp4
    rw [h1, h2, h3, h4] at hlen
    simp only [Option.getD_some] at hlen
    rw [h1, h2, h3, h4]
    simp only [Option.getD_some]
    exact readBuffer_ok busy resp vg ig vd c hb1 hb2 hb3 hb4 h1 h2 h3 h4 hlen
  · intro hk hb hpre
    exact readBuffer_busy busy resp k hk hb hpre

/-- C8 witness: a clean transport answering `1.0,2.0` on every query, and
a transport busy on the second query. -/
theorem C8_readBuffer_witness :
    readBuffer (fun _ => false) (fun _ => "1.0,2.0") =
      ⟨some (zip4 ((parseFloatList "1.0,2.0").getD [])
                  ((parseFloatList "1.0,2.0").getD [])
                  ((parseFloatList "1.0,2.0").getD [])
                  ((parseFloatList "1.0,2.0").getD [])),
       queryCmds⟩ ∧
    (readBuffer (fun cmd => decide (cmd = bufferCmd2)) (fun _ => "1.0,2.0")).result = none ∧
    (readBuffer (fun cmd => decide (cmd = bufferCmd2)) (fun _ => "1.0,2.0")).queriesIssued =
      queryCmds.take 2 := by
  refine ⟨?_, ?_⟩
  · exact (C8_readBuffer (fun _ => false) (fun _ => "1.0,2.0") 0).1
      (by decide) (by decide) (by decide) (by decide)
      (by decide) (by decide) (by decide) (by decide) (by decide)
  · exact (C8_readBuffer (fun cmd => decide (cmd = bufferCmd2)) (fun _ => "1.0,2.0") 1).2
      (by decide) (by decide) (by decide)

/-- C9: close on a never-opened connection is caught (AttributeError) and
reports NotConnected; close on an open connection closes it; but a second
close on the now-closed session raises pyvisa's InvalidSession, which the
handlers (NameError, AttributeError) do not catch — so close after close
raises past the boundary instead of reporting NotConnected. -/
theorem C9_close_double :
    (closeConnection .noInst).1 = .notConnectedReport ∧
    closeConnection .opened = (.closedOk, .closed) ∧
    (closeConnection (closeConnection .opened).2).1 = .raisedInvalidSession ∧
    CloseOutcome.raisedInvalidSession ≠ CloseOutcome.notConnectedReport := by
  decide

/-- C10 counterexample: with a measurement thread running, the GUI cancel
path does not only write the shared flag — it issues the four abort
commands on the shared connection from the cancelling context. -/
theorem C10_counterexample :
    (guiCancelOperation ⟨true, ⟨false⟩⟩).2 = cancelOperation ∧
    (guiCancelOperation ⟨true, ⟨false⟩⟩).2 ≠ [] := by
  decide

/-- C10 amended: whenever a measurement thread is running, the cancel path
both sets the shared cancellation flag and itself writes the abort
command sequence on the shared connection — connection I/O is not
confined to the worker context. -/
theorem C10_cancel_path_writes (app : AppState) (h : app.threadRunning = true) :
    (guiCancelOperation app).1.thread.cancelRequested = true ∧
    (guiCancelOperation app).2 = cancelOperation := by
  unfold guiCancelOperation measureThreadCancel
  rw [if_pos h]
  exact ⟨rfl, rfl⟩

/-- C10 witness: a running thread whose flag is still clear. -/
theorem C10_cancel_path_writes_witness :
    (guiCancelOperation ⟨true, ⟨true⟩⟩).1.thread.cancelRequested = true ∧
    (guiCancelOperation ⟨true, ⟨true⟩⟩).2 = cancelOperation :=
  C10_cancel_path_writes ⟨true, ⟨true⟩⟩ rfl

end K2636
